import Mathlib

/-
Verification of the reward computation and step pacing of
`src/bullet/src/spotmicro/GymEnvs/spot_bezier_env.py` (class spotBezierEnv).
Scalars are modelled as real numbers; vectors of joint torques and
velocities as lists of reals; the 3-vector quantities as functions
`Fin 3 → ℝ` and rotation matrices as `Matrix (Fin 3) (Fin 3) ℝ`.
-/

namespace SpotBezierEnv

/-- Python's `math.copysign x y`: the magnitude of `x` with the sign of `y`.
A real zero for `y` corresponds to the Python float `+0.0`, whose sign bit is
positive, so `copysign x 0 = |x|`.  (The distinct float `-0.0` has no separate
representation in `ℝ`.) -/
noncomputable def copysign (x y : ℝ) : ℝ := if y < 0 then -|x| else |x|

/-- The gait parameters read from the SMACH gait source by
`smach.return_bezier_params()` (the four used by `_reward`). -/
structure GaitParams where
  StepLength : ℝ
  LateralFraction : ℝ
  YawRate : ℝ
  StepVelocity : ℝ

/-- Line 181 of the source:
`DesiredVelicty = math.copysign(StepVelocity / 4.0, StepLength)`. -/
noncomputable def DesiredVelicty (g : GaitParams) : ℝ :=
  copysign (g.StepVelocity / 4.0) g.StepLength

/-- Modelled from the spec: the kinematics library
`spotmicro.Kinematics.LieAlgebra` is not under `src/`; the spec describes the
rotation block of `LA.RPY` as the rotation matrix derived from roll/pitch/yaw
Euler angles.  Elementary rotation about the x axis. -/
noncomputable def RotX (t : ℝ) : Matrix (Fin 3) (Fin 3) ℝ :=
  !![1, 0, 0; 0, Real.cos t, -Real.sin t; 0, Real.sin t, Real.cos t]

/-- Modelled from the spec: elementary rotation about the y axis. -/
noncomputable def RotY (t : ℝ) : Matrix (Fin 3) (Fin 3) ℝ :=
  !![Real.cos t, 0, Real.sin t; 0, 1, 0; -Real.sin t, 0, Real.cos t]

/-- Modelled from the spec: elementary rotation about the z axis. -/
noncomputable def RotZ (t : ℝ) : Matrix (Fin 3) (Fin 3) ℝ :=
  !![Real.cos t, -Real.sin t, 0; Real.sin t, Real.cos t, 0; 0, 0, 1]

/-- Modelled from the spec: the rotation block of `LA.RPY(roll, pitch, yaw)`,
the standard yaw-pitch-roll composition. -/
noncomputable def RPY (roll pitch yaw : ℝ) : Matrix (Fin 3) (Fin 3) ℝ :=
  RotZ yaw * RotY pitch * RotX roll

/-- A homogeneous rigid transform, kept as its rotation block and translation
(spec section 3, Homogeneous Transform). -/
structure HTransform where
  R : Matrix (Fin 3) (Fin 3) ℝ
  p : Fin 3 → ℝ

/-- Modelled from the spec: `LA.RpToTrans` packages a rotation and a
translation into a homogeneous transform. -/
def RpToTrans (R : Matrix (Fin 3) (Fin 3) ℝ) (p : Fin 3 → ℝ) : HTransform :=
  ⟨R, p⟩

/-- Modelled from the spec: `LA.TransInv`, the inverse of a rigid transform
with orthonormal rotation block: `(R, p)⁻¹ = (Rᵀ, -Rᵀ p)`. -/
noncomputable def TransInv (T : HTransform) : HTransform :=
  ⟨T.R.transpose, -(T.R.transpose.mulVec T.p)⟩

/-- Modelled from the spec: the skew-symmetric matrix of a 3-vector, used in
the adjoint of a rigid transform. -/
noncomputable def VecToso3 (p : Fin 3 → ℝ) : Matrix (Fin 3) (Fin 3) ℝ :=
  !![0, -(p 2), p 1; p 2, 0, -(p 0); -(p 1), p 0, 0]

/-- Modelled from the spec: `LA.Adjoint` of a transform `(R, p)` applied to a
6-twist written angular-first: `Ad(T)(ω, v) = (R ω, [p]× R ω + R v)`
(spec section 3, Adjoint Matrix). -/
noncomputable def AdjointApply (T : HTransform) (w v : Fin 3 → ℝ) :
    (Fin 3 → ℝ) × (Fin 3 → ℝ) :=
  (T.R.mulVec w, (VecToso3 T.p * T.R).mulVec w + T.R.mulVec v)

/-- The inputs `_reward` reads from the robot, the physics client and the
gait source.  Roll, pitch and yaw are the Euler angles that
`getEulerFromQuaternion` (an external collaborator) extracts from the base
orientation quaternion. -/
structure RewardInputs where
  gait : GaitParams
  pos : Fin 3 → ℝ
  roll : ℝ
  pitch : ℝ
  yaw : ℝ
  prev_ang_twist : Fin 3 → ℝ
  prev_lin_twist : Fin 3 → ℝ
  obs : Fin 5 → ℝ
  torques : List ℝ
  velocities : List ℝ
  time_step : ℝ

/-- Lines 184-196: build `T_wb` from the Euler angles and position, invert it,
and push the concatenated world-frame twist (angular first) through the
adjoint to obtain the body-frame twist `Vb`. -/
noncomputable def bodyTwist (i : RewardInputs) : (Fin 3 → ℝ) × (Fin 3 → ℝ) :=
  let T_wb := RpToTrans (RPY i.roll i.pitch i.yaw) i.pos
  let T_bw := TransInv T_wb
  AdjointApply T_bw i.prev_ang_twist i.prev_lin_twist

/-- Line 204: `fwd_speed = -Vb[3]` (first linear component, negated). -/
noncomputable def fwd_speed (i : RewardInputs) : ℝ := -((bodyTwist i).2 0)

/-- Line 205: `lat_speed = -Vb[4]` (second linear component, negated). -/
noncomputable def lat_speed (i : RewardInputs) : ℝ := -((bodyTwist i).2 1)

/-- Line 208: `reward_max = 1.0`. -/
noncomputable def reward_max : ℝ := 1.0

/-- Lines 210-211: the forward-tracking Gaussian reward before the lateral
term is added in. -/
noncomputable def forward_reward0 (i : RewardInputs) : ℝ :=
  reward_max *
    Real.exp (-(fwd_speed i -
        DesiredVelicty i.gait * Real.cos i.gait.LateralFraction) ^ 2 / 0.1)

/-- Lines 212-213: the lateral-tracking Gaussian reward. -/
noncomputable def lateral_reward (i : RewardInputs) : ℝ :=
  reward_max *
    Real.exp (-(lat_speed i -
        DesiredVelicty i.gait * Real.sin i.gait.LateralFraction) ^ 2 / 0.1)

/-- Line 227: `forward_reward += lateral_reward`; this combined value is what
enters the weighted sum and the objectives log. -/
noncomputable def forward_reward (i : RewardInputs) : ℝ :=
  forward_reward0 i + lateral_reward i

/-- Lines 229-231: yaw-rate tracking reward from observation entry 4. -/
noncomputable def rot_reward (i : RewardInputs) : ℝ :=
  reward_max * Real.exp (-(i.obs 4 - i.gait.YawRate) ^ 2 / 0.1)

/-- Line 234: attitude penalty, `-(abs(obs[0]) + abs(obs[1]))`. -/
def rp_reward (i : RewardInputs) : ℝ := -(|i.obs 0| + |i.obs 1|)

/-- Line 238: shake penalty, fixed at zero. -/
def shake_reward : ℝ := 0

/-- Line 241: angular-rate penalty, `-(abs(obs[2]) + abs(obs[3]))`. -/
def rate_reward (i : RewardInputs) : ℝ := -(|i.obs 2| + |i.obs 3|)

/-- Line 243: drift penalty, fixed at zero. -/
def drift_reward : ℝ := 0

/-- `np.dot` on two equal-length 1-d arrays; on a length mismatch the extra
tail contributes nothing here (numpy would raise, which the spec treats as a
caller contract violation). -/
def dot : List ℝ → List ℝ → ℝ
  | a :: as, b :: bs => a * b + dot as bs
  | _, _ => 0

/-- Lines 244-246 with the torque/velocity vectors and the per-substep time
made explicit: `-np.abs(np.dot(torques, velocities)) * time_step`. -/
def energy_reward_calc (torques velocities : List ℝ) (ts : ℝ) : ℝ :=
  -|dot torques velocities| * ts

/-- Lines 244-246 as read from the reward inputs. -/
def energy_reward (i : RewardInputs) : ℝ :=
  energy_reward_calc i.torques i.velocities i.time_step

/-- The seven reward weights supplied to `__init__`. -/
structure RewardWeights where
  distance_weight : ℝ
  rotation_weight : ℝ
  energy_weight : ℝ
  shake_weight : ℝ
  drift_weight : ℝ
  rp_weight : ℝ
  rate_weight : ℝ

/-- The default weights of `__init__` (lines 45-51). -/
noncomputable def defaultWeights : RewardWeights :=
  ⟨1.0, 1.0, 0.0005, 0.005, 2.0, 0.1, 0.1⟩

/-- Lines 247-253: the final weighted sum returned by `_reward`. -/
noncomputable def reward (w : RewardWeights) (i : RewardInputs) : ℝ :=
  w.distance_weight * forward_reward i + w.rotation_weight * rot_reward i +
    w.energy_weight * energy_reward i + w.drift_weight * drift_reward +
    w.shake_weight * shake_reward + w.rp_weight * rp_reward i +
    w.rate_weight * rate_reward i

/-- Lines 254-255: the 4-tuple appended to `self._objectives`. -/
noncomputable def objectivesEntry (i : RewardInputs) : ℝ × ℝ × ℝ × ℝ :=
  (forward_reward i, energy_reward i, drift_reward, shake_reward)

/-- The whole of `_reward` as a state transformer on the objectives log:
it returns the scalar reward and the log with exactly one entry appended. -/
noncomputable def rewardStep (w : RewardWeights) (i : RewardInputs)
    (objectives : List (ℝ × ℝ × ℝ × ℝ)) : ℝ × List (ℝ × ℝ × ℝ × ℝ) :=
  (reward w i, objectives ++ [objectivesEntry i])

/-- Line 153: `time_to_sleep = self.control_time_step - time_spent`. -/
def time_to_sleep (control_time_step time_spent : ℝ) : ℝ :=
  control_time_step - time_spent

/-- Lines 154-155 of `step`: the sleep is requested only when
`time_to_sleep > 0`; `none` means no sleep call is made. -/
noncomputable def sleepRequest (control_time_step time_spent : ℝ) : Option ℝ :=
  if time_to_sleep control_time_step time_spent > 0 then
    some (time_to_sleep control_time_step time_spent)
  else none

/-- Gait parameters of the end-to-end scenario of the spec (section 8). -/
noncomputable def c2Gait : GaitParams := ⟨1.0, 0, 0, 4.0⟩

/-- Reward inputs of the end-to-end scenario: identity orientation, origin
position, zero angular twist, previous linear twist `(-1, 0, 0)`, zero
observation, zero torques and velocities over the 12 motors. -/
noncomputable def c2Input : RewardInputs :=
  ⟨c2Gait, 0, 0, 0, 0, 0, ![-1, 0, 0], 0,
    List.replicate 12 0, List.replicate 12 0, 0.01⟩

/-- An all-zero reward input, used to instantiate hypotheses at a concrete
point. -/
noncomputable def zeroInput : RewardInputs :=
  ⟨⟨0, 0, 0, 0⟩, 0, 0, 0, 0, 0, 0, 0, [], [], 0⟩

/-- A reward input whose observation has nonzero attitude and rate entries. -/
noncomputable def tiltedInput : RewardInputs :=
  ⟨⟨0, 0, 0, 0⟩, 0, 0, 0, 0, 0, 0, fun _ => 1, [], [], 0⟩

/-- Weights that differ from the defaults only in `shake_weight` and
`drift_weight`. -/
noncomputable def altWeights : RewardWeights :=
  ⟨1.0, 1.0, 0.0005, 0.9, 0.7, 0.1, 0.1⟩

/- ------------------------------------------------------------------ -/
/- Theorems                                                            -/
/- ------------------------------------------------------------------ -/

theorem dot_zero_left (t : List ℝ) :
    ∀ v : List ℝ, (∀ x ∈ t, x = 0) → dot t v = 0 := by
  induction t with
  | nil => intro v _; simp [dot]
  | cons a as ih =>
    intro v h
    cases v with
    | nil => simp [dot]
    | cons b bs =>
      have ha : a = 0 := h a (by simp)
      have hrest := ih bs (fun x hx => h x (by simp [hx]))
      simp [dot, ha, hrest]

theorem dot_zero_right (t : List ℝ) :
    ∀ v : List ℝ, (∀ x ∈ v, x = 0) → dot t v = 0 := by
  induction t with
  | nil => intro v _; simp [dot]
  | cons a as ih =>
    intro v h
    cases v with
    | nil => simp [dot]
    | cons b bs =>
      have hb : b = 0 := h b (by simp)
      have hrest := ih bs (fun x hx => h x (by simp [hx]))
      simp [dot, hb, hrest]

theorem RotX_zero : RotX 0 = 1 := by
  simp [RotX, Matrix.one_fin_three]

theorem RotY_zero : RotY 0 = 1 := by
  simp [RotY, Matrix.one_fin_three]

theorem RotZ_zero : RotZ 0 = 1 := by
  simp [RotZ, Matrix.one_fin_three]

theorem RPY_zero : RPY 0 0 0 = 1 := by
  simp [RPY, RotX_zero, RotY_zero, RotZ_zero]

theorem VecToso3_zero : VecToso3 (0 : Fin 3 → ℝ) = 0 := by
  ext i j
  fin_cases i <;> fin_cases j <;>
    simp [VecToso3, Matrix.vecHead, Matrix.vecTail, Function.comp]

theorem bodyTwist_identity (i : RewardInputs) (hr : i.roll = 0)
    (hp : i.pitch = 0) (hy : i.yaw = 0) (hpos : i.pos = 0) :
    bodyTwist i = (i.prev_ang_twist, i.prev_lin_twist) := by
  simp [bodyTwist, RpToTrans, TransInv, AdjointApply, hr, hp, hy, hpos,
    RPY_zero, Matrix.transpose_one, Matrix.mulVec_zero, VecToso3_zero,
    Matrix.one_mulVec, Matrix.zero_mulVec]

theorem AdjointApply_zero_twist (T : HTransform) :
    AdjointApply T 0 0 = (0, 0) := by
  simp [AdjointApply, Matrix.mulVec_zero]

/-- Claim C1 as stated is false on the code: with `stepLength = 0` and
`stepVelocity = 4`, `copysign` gives the desired forward speed the positive
sign of the float `+0.0`, yielding `1`, not `0`. -/
theorem C1_counterexample :
    DesiredVelicty ⟨0, 0, 0, 4.0⟩ = 1 ∧ DesiredVelicty ⟨0, 0, 0, 4.0⟩ ≠ 0 := by
  norm_num [DesiredVelicty, copysign]

/-- Claim C1 (amended): when `stepLength = 0` the desired forward speed is
`|stepVelocity| / 4` — `copysign` treats the zero as positively signed — so it
is `0` only when `stepVelocity` itself is `0`, not regardless of it. -/
theorem C1_amended (g : GaitParams) (h : g.StepLength = 0) :
    DesiredVelicty g = |g.StepVelocity| / 4 := by
  simp [DesiredVelicty, copysign, h]
  norm_num [abs_div]

theorem C1_amended_witness :
    DesiredVelicty ⟨0, 0, 0, 4.0⟩ = |(4.0 : ℝ)| / 4 :=
  C1_amended ⟨0, 0, 0, 4.0⟩ rfl

/-- Claim C3: the final reward returned by the Reward Evaluator is exactly the
weighted sum of the seven components with the construction-time weights. -/
theorem C3_weighted_sum (w : RewardWeights) (i : RewardInputs) :
    (rewardStep w i []).1 =
      w.distance_weight * forward_reward i +
        w.rotation_weight * rot_reward i +
        w.energy_weight * energy_reward i +
        w.drift_weight * drift_reward +
        w.shake_weight * shake_reward +
        w.rp_weight * rp_reward i +
        w.rate_weight * rate_reward i := rfl

/-- Claim C4 as stated is false on the code: orthogonal nonzero torque and
velocity vectors make the dot product, hence the energy penalty, zero. -/
theorem C4_counterexample :
    energy_reward_calc [1, -1] [1, 1] 1 = 0 ∧
      ¬(∀ x ∈ ([1, -1] : List ℝ), x = 0) ∧
      ¬(∀ x ∈ ([1, 1] : List ℝ), x = 0) := by
  refine ⟨by norm_num [energy_reward_calc, dot], ?_, ?_⟩
  · intro h
    have := h 1 (by simp)
    norm_num at this
  · intro h
    have := h 1 (by simp)
    norm_num at this

/-- Claim C4 (amended): for a non-negative time step the energy penalty is
always `≤ 0`; it is `0` exactly when the torque/velocity dot product is `0` or
the time step is `0`.  All torques zero, or all velocities zero, is sufficient
for a zero penalty but not necessary. -/
theorem C4_amended (t v : List ℝ) (ts : ℝ) (h : 0 ≤ ts) :
    energy_reward_calc t v ts ≤ 0 ∧
      (energy_reward_calc t v ts = 0 ↔ dot t v = 0 ∨ ts = 0) ∧
      ((∀ x ∈ t, x = 0) → energy_reward_calc t v ts = 0) ∧
      ((∀ x ∈ v, x = 0) → energy_reward_calc t v ts = 0) := by
  refine ⟨?_, ?_, ?_, ?_⟩
  · have hnn : 0 ≤ |dot t v| * ts := mul_nonneg (abs_nonneg _) h
    simpa [energy_reward_calc, neg_mul] using neg_nonpos.mpr hnn
  · rw [energy_reward_calc, neg_mul, neg_eq_zero, mul_eq_zero, abs_eq_zero]
  · intro ht
    simp [energy_reward_calc, dot_zero_left t v ht]
  · intro hv
    simp [energy_reward_calc, dot_zero_right t v hv]

theorem C4_amended_witness :
    (0 : ℝ) ≤ 1 ∧ energy_reward_calc [0] [1] 1 ≤ 0 :=
  ⟨by norm_num, (C4_amended [0] [1] 1 (by norm_num)).1⟩

/-- Claim C8: in the real-time pacing branch, a sleep is requested only when
the remaining budget `control_time_step - time_spent` is strictly positive, so
every requested sleep duration is strictly positive. -/
theorem C8_no_negative_sleep (c t d : ℝ) (h : sleepRequest c t = some d) :
    0 < d := by
  by_cases hpos : time_to_sleep c t > 0
  · rw [sleepRequest, if_pos hpos] at h
    cases h
    exact hpos
  · rw [sleepRequest, if_neg hpos] at h
    cases h

theorem C8_witness :
    sleepRequest 1 0 = some 1 ∧ (0 : ℝ) < 1 :=
  ⟨by norm_num [sleepRequest, time_to_sleep],
    C8_no_negative_sleep 1 0 1 (by norm_num [sleepRequest, time_to_sleep])⟩

theorem c2_fwd : fwd_speed c2Input = 1 := by
  rw [fwd_speed, bodyTwist_identity c2Input rfl rfl rfl rfl]
  show -(![(-1 : ℝ), 0, 0] 0) = 1
  norm_num

theorem c2_lat : lat_speed c2Input = 0 := by
  rw [lat_speed, bodyTwist_identity c2Input rfl rfl rfl rfl]
  show -(![(-1 : ℝ), 0, 0] 1) = 0
  norm_num

theorem c2_desired : DesiredVelicty c2Gait = 1 := by
  norm_num [DesiredVelicty, copysign, c2Gait]

theorem c2_forward : forward_reward c2Input = 2 := by
  have hg : c2Input.gait = c2Gait := rfl
  have hLF : c2Gait.LateralFraction = 0 := rfl
  rw [forward_reward, forward_reward0, lateral_reward, c2_fwd, c2_lat, hg,
    c2_desired, hLF, Real.cos_zero, Real.sin_zero]
  norm_num [reward_max, Real.exp_zero]

theorem c2_rot : rot_reward c2Input = 1 := by
  have ho : c2Input.obs = 0 := rfl
  have hg : c2Input.gait = c2Gait := rfl
  have hY : c2Gait.YawRate = 0 := rfl
  rw [rot_reward, ho, hg, hY]
  norm_num [reward_max, Real.exp_zero]

theorem c2_energy : energy_reward c2Input = 0 := by
  have ht : c2Input.torques = List.replicate 12 0 := rfl
  have hv : c2Input.velocities = List.replicate 12 0 := rfl
  have hd : dot (List.replicate 12 (0 : ℝ)) (List.replicate 12 (0 : ℝ)) = 0 :=
    dot_zero_left _ _ (fun x hx => List.eq_of_mem_replicate hx)
  rw [energy_reward, ht, hv, energy_reward_calc, hd]
  norm_num

theorem c2_rp : rp_reward c2Input = 0 := by
  have ho : c2Input.obs = 0 := rfl
  simp [rp_reward, ho]

theorem c2_rate : rate_reward c2Input = 0 := by
  have ho : c2Input.obs = 0 := rfl
  simp [rate_reward, ho]

/-- Claim C2: the end-to-end scenario of the spec — identity orientation,
origin position, zero angular twist, previous linear twist `(-1, 0, 0)`, gait
`(1.0, 0, 0, 4.0)`, zero observation and zero torques/velocities — yields the
final reward `3` under the default weights and appends the components tuple
`(2, 0, 0, 0)` to the objectives log. -/
theorem C2_end_to_end :
    rewardStep defaultWeights c2Input [] =
      ((3 : ℝ), [((2 : ℝ), (0 : ℝ), (0 : ℝ), (0 : ℝ))]) := by
  rw [rewardStep, reward, objectivesEntry, c2_forward, c2_rot, c2_energy,
    c2_rp, c2_rate]
  norm_num [defaultWeights, drift_reward, shake_reward]

/-- Claim C5: with zero previous world-frame twist the extracted forward and
lateral speeds are `0`, so the two tracking rewards reduce to the Gaussians of
the desired components alone, and each equals exactly `1` when its desired
component is `0`. -/
theorem C5_zero_twist (i : RewardInputs) (h1 : i.prev_ang_twist = 0)
    (h2 : i.prev_lin_twist = 0) :
    forward_reward0 i =
      Real.exp (-(DesiredVelicty i.gait *
        Real.cos i.gait.LateralFraction) ^ 2 / 0.1) ∧
    lateral_reward i =
      Real.exp (-(DesiredVelicty i.gait *
        Real.sin i.gait.LateralFraction) ^ 2 / 0.1) ∧
    (DesiredVelicty i.gait * Real.cos i.gait.LateralFraction = 0 →
      forward_reward0 i = 1) ∧
    (DesiredVelicty i.gait * Real.sin i.gait.LateralFraction = 0 →
      lateral_reward i = 1) := by
  have hb : bodyTwist i = (0, 0) := by
    simp [bodyTwist, h1, h2, AdjointApply_zero_twist]
  have hf : fwd_speed i = 0 := by simp [fwd_speed, hb]
  have hl : lat_speed i = 0 := by simp [lat_speed, hb]
  have e1 : forward_reward0 i =
      Real.exp (-(DesiredVelicty i.gait *
        Real.cos i.gait.LateralFraction) ^ 2 / 0.1) := by
    rw [forward_reward0, hf, reward_max]
    norm_num
  have e2 : lateral_reward i =
      Real.exp (-(DesiredVelicty i.gait *
        Real.sin i.gait.LateralFraction) ^ 2 / 0.1) := by
    rw [lateral_reward, hl, reward_max]
    norm_num
  refine ⟨e1, e2, ?_, ?_⟩
  · intro h
    rw [e1, h]
    norm_num [Real.exp_zero]
  · intro h
    rw [e2, h]
    norm_num [Real.exp_zero]

theorem C5_witness :
    forward_reward0 zeroInput = 1 ∧ lateral_reward zeroInput = 1 := by
  have h := C5_zero_twist zeroInput rfl rfl
  have hD : DesiredVelicty zeroInput.gait = 0 := by
    norm_num [DesiredVelicty, copysign, zeroInput]
  exact ⟨h.2.2.1 (by rw [hD]; ring), h.2.2.2 (by rw [hD]; ring)⟩

/-- Claim C6: each evaluation appends exactly one entry — the 4-tuple of
combined forward+lateral reward, energy penalty, drift penalty and shake
penalty, in that order — to the objectives log, and the existing entries are
preserved unchanged. -/
theorem C6_log_append (w : RewardWeights) (i : RewardInputs)
    (log : List (ℝ × ℝ × ℝ × ℝ)) :
    (rewardStep w i log).2 =
      log ++ [(forward_reward i, energy_reward i, drift_reward,
        shake_reward)] ∧
    ((rewardStep w i log).2).length = log.length + 1 ∧
    ((rewardStep w i log).2).take log.length = log := by
  refine ⟨rfl, ?_, ?_⟩
  · simp [rewardStep]
  · simp [rewardStep]

/-- Claim C7: the attitude penalty is monotonically non-increasing in
`|roll| + |pitch|` and the angular-rate penalty in `|rate_x| + |rate_y|`,
holding everything else fixed. -/
theorem C7_penalty_monotone (i j : RewardInputs)
    (h1 : |i.obs 0| + |i.obs 1| ≤ |j.obs 0| + |j.obs 1|)
    (h2 : |i.obs 2| + |i.obs 3| ≤ |j.obs 2| + |j.obs 3|) :
    rp_reward j ≤ rp_reward i ∧ rate_reward j ≤ rate_reward i :=
  ⟨neg_le_neg h1, neg_le_neg h2⟩

theorem C7_witness :
    rp_reward tiltedInput ≤ rp_reward zeroInput ∧
      rate_reward tiltedInput ≤ rate_reward zeroInput :=
  C7_penalty_monotone zeroInput tiltedInput
    (by norm_num [zeroInput, tiltedInput])
    (by norm_num [zeroInput, tiltedInput])

/-- Claim C9: the shake and drift penalties are identically `0`, so the final
reward does not depend on `shake_weight` or `drift_weight`. -/
theorem C9_shake_drift (w w' : RewardWeights) (i : RewardInputs)
    (hdist : w.distance_weight = w'.distance_weight)
    (hrot : w.rotation_weight = w'.rotation_weight)
    (hen : w.energy_weight = w'.energy_weight)
    (hrp : w.rp_weight = w'.rp_weight)
    (hrate : w.rate_weight = w'.rate_weight) :
    shake_reward = 0 ∧ drift_reward = 0 ∧ reward w i = reward w' i := by
  refine ⟨rfl, rfl, ?_⟩
  simp only [reward, hdist, hrot, hen, hrp, hrate, drift_reward, shake_reward,
    mul_zero, add_zero]

theorem C9_witness :
    reward defaultWeights zeroInput = reward altWeights zeroInput :=
  (C9_shake_drift defaultWeights altWeights zeroInput rfl rfl rfl rfl rfl).2.2

theorem gauss_bounds (x : ℝ) :
    0 < Real.exp (-x ^ 2 / 0.1) ∧ Real.exp (-x ^ 2 / 0.1) ≤ 1 := by
  refine ⟨Real.exp_pos _, ?_⟩
  rw [Real.exp_le_one_iff]
  have h2 : -x ^ 2 / 0.1 = x ^ 2 * (-10) := by ring
  rw [h2]
  nlinarith [sq_nonneg x]

/-- Claim C10: each Gaussian tracking term lies in `(0, 1]`, the combined
forward+lateral reward in `(0, 2]`, the yaw-rate reward in `(0, 1]`, the
attitude and angular-rate penalties are `≤ 0`, and for non-negative distance
and rotation weights the positive tracking contribution is bounded by
`2 * distance_weight + rotation_weight`. -/
theorem C10_bounds (i : RewardInputs) (w : RewardWeights) :
    (0 < forward_reward0 i ∧ forward_reward0 i ≤ 1) ∧
    (0 < lateral_reward i ∧ lateral_reward i ≤ 1) ∧
    (0 < forward_reward i ∧ forward_reward i ≤ 2) ∧
    (0 < rot_reward i ∧ rot_reward i ≤ 1) ∧
    rp_reward i ≤ 0 ∧ rate_reward i ≤ 0 ∧
    (0 ≤ w.distance_weight → 0 ≤ w.rotation_weight →
      w.distance_weight * forward_reward i + w.rotation_weight * rot_reward i ≤
        2 * w.distance_weight + w.rotation_weight) := by
  have hf := gauss_bounds (fwd_speed i -
    DesiredVelicty i.gait * Real.cos i.gait.LateralFraction)
  have hl := gauss_bounds (lat_speed i -
    DesiredVelicty i.gait * Real.sin i.gait.LateralFraction)
  have hr := gauss_bounds (i.obs 4 - i.gait.YawRate)
  have e1 : forward_reward0 i = Real.exp (-(fwd_speed i -
      DesiredVelicty i.gait * Real.cos i.gait.LateralFraction) ^ 2 / 0.1) := by
    rw [forward_reward0, reward_max]
    norm_num
  have e2 : lateral_reward i = Real.exp (-(lat_speed i -
      DesiredVelicty i.gait * Real.sin i.gait.LateralFraction) ^ 2 / 0.1) := by
    rw [lateral_reward, reward_max]
    norm_num
  have e3 : rot_reward i =
      Real.exp (-(i.obs 4 - i.gait.YawRate) ^ 2 / 0.1) := by
    rw [rot_reward, reward_max]
    norm_num
  have hf0 : 0 < forward_reward0 i := by rw [e1]; exact hf.1
  have hf1 : forward_reward0 i ≤ 1 := by rw [e1]; exact hf.2
  have hl0 : 0 < lateral_reward i := by rw [e2]; exact hl.1
  have hl1 : lateral_reward i ≤ 1 := by rw [e2]; exact hl.2
  have hr0 : 0 < rot_reward i := by rw [e3]; exact hr.1
  have hr1 : rot_reward i ≤ 1 := by rw [e3]; exact hr.2
  have hc0 : 0 < forward_reward i := by rw [forward_reward]; linarith
  have hc2 : forward_reward i ≤ 2 := by rw [forward_reward]; linarith
  refine ⟨⟨hf0, hf1⟩, ⟨hl0, hl1⟩, ⟨hc0, hc2⟩, ⟨hr0, hr1⟩, ?_, ?_, ?_⟩
  · exact neg_nonpos.mpr (add_nonneg (abs_nonneg _) (abs_nonneg _))
  · exact neg_nonpos.mpr (add_nonneg (abs_nonneg _) (abs_nonneg _))
  · intro hd hw
    have m1 := mul_le_mul_of_nonneg_left hc2 hd
    have m2 := mul_le_mul_of_nonneg_left hr1 hw
    linarith

theorem C10_witness :
    rp_reward zeroInput ≤ 0 ∧
      defaultWeights.distance_weight * forward_reward zeroInput +
        defaultWeights.rotation_weight * rot_reward zeroInput ≤
        2 * defaultWeights.distance_weight + defaultWeights.rotation_weight := by
  have h := C10_bounds zeroInput defaultWeights
  exact ⟨h.2.2.2.2.1,
    h.2.2.2.2.2.2 (by norm_num [defaultWeights]) (by norm_num [defaultWeights])⟩

end SpotBezierEnv
